import Mathlib

/-!
Verification of the spectral preprocessing pipeline of the
Galactic-Rotation repository (`src/data_functions.py`,
`src/plot_functions.py`).

Numbers are modelled as rationals (exact arithmetic in place of Python
floats); the decimal constants of the source appear as their exact
rational values.  2-D numpy arrays (`data` fields, axis 0 = scan index)
are lists of rows; `mean(axis=0).flatten()` becomes `colMean`.
`pandas.DataFrame` construction from a dict of three columns becomes a
length check (pandas raises when the columns disagree in length —
`Err.frequencyMismatch` in the spec's taxonomy) followed by a list of
three-field rows; `df.drop(df[cond].index)` becomes `List.filter` on the
negated condition.  `np.polyfit` is an external numeric routine (numpy,
not repository code), so `detrend` is parameterised by the fitting
function it calls; `np.polyval` with highest-degree-first coefficients
is the Horner scheme `polyval`.  File I/O of `get_all_datasets` is
external as well: the directory listing and the pickle decoder are
passed as arguments.
-/

/-- One row of the spectrum table built by `create_dataframe`:
columns `freq`, `data` (on-plane scan mean) and `baseline`
(off-plane scan mean). -/
structure Row where
  freq : ℚ
  data : ℚ
  baseline : ℚ
deriving DecidableEq, Repr

/-- A decoded pickle file: keys `freqs`, `data` (2-D, axis 0 = scan
index) and `time`. -/
structure Raw where
  freqs : List ℚ
  data : List (List ℚ)
  time : List ℚ
deriving DecidableEq, Repr

/-- Error taxonomy of the spec for the failures the source code can
raise (pandas length mismatch, list index out of range). -/
inductive Err where
  | frequencyMismatch
  | unknownLongitude
deriving DecidableEq, Repr

deriving instance DecidableEq for Except

/-- Column-wise sum of a 2-D array (numpy `sum(axis=0)` on a rectangular
array). -/
def colSum : List (List ℚ) → List ℚ
  | [] => []
  | [r] => r
  | r :: rs => List.zipWith (· + ·) r (colSum rs)

/-- numpy `mean(axis=0).flatten()` on a rectangular 2-D array. -/
def colMean (a : List (List ℚ)) : List ℚ :=
  (colSum a).map (· / (a.length : ℚ))

/-- numpy `abs`, written so that it evaluates by reduction. -/
def npAbs (x : ℚ) : ℚ := if x < 0 then -x else x

/-- Three-list zip with a ternary constructor. -/
def zipWith3 (f : ℚ → ℚ → ℚ → Row) : List ℚ → List ℚ → List ℚ → List Row
  | x :: xs, y :: ys, z :: zs => f x y z :: zipWith3 f xs ys zs
  | _, _, _ => []

/-- `create_dataframe(set_on, set_off)` from `src/data_functions.py`:
builds the freq/data/baseline table (pandas raises when the three
columns differ in length) and drops the rows near 1420, 1419.2 and
1423.5 MHz, one band at a time. -/
def create_dataframe (set_on set_off : Raw) : Except Err (List Row) :=
  let freq := set_on.freqs
  let data := colMean set_on.data
  let base := colMean set_off.data
  if freq.length = data.length ∧ data.length = base.length then
    let df := zipWith3 Row.mk freq data base
    let df := df.filter (fun r => !decide (npAbs (r.freq - 1420) < 1/100))
    let df := df.filter (fun r => !decide (npAbs (r.freq - 14192/10) < 1/20))
    let df := df.filter (fun r => !decide (npAbs (r.freq - 28470/20) < 1/20))
    .ok df
  else
    .error .frequencyMismatch

/-- The 21-cm hydrogen line rest frequency (`f21cm = 1420.405` MHz in
the source). -/
def f21cm : ℚ := 1420405/1000

/-- numpy `polyval`: coefficients with the highest degree first, Horner
evaluation. -/
def polyval (coeff : List ℚ) (x : ℚ) : ℚ :=
  coeff.foldl (fun acc c => acc * x + c) 0

/-- `detrend(df)` from `src/plot_functions.py`.  `np.polyfit` is numpy
code, not repository code, so the least-squares fitting routine is a
parameter `fit deg points`; the function passes it the degree 13 and the
(freq, data/baseline) pairs of the rows kept by the trim, exactly as the
source passes `df_trimmed.freq` and `norm_trimmed` to `np.polyfit`. -/
def detrend (fit : ℕ → List (ℚ × ℚ) → List ℚ) (df : List Row) : List ℚ :=
  let df_trimmed := df.filter (fun r => !decide (npAbs (r.freq - f21cm) < 1/2))
  let norm_trimmed := df_trimmed.map (fun r => r.data / r.baseline)
  let norm := df.map (fun r => r.data / r.baseline)
  let fit_coeff := fit 13 (List.zip (df_trimmed.map Row.freq) norm_trimmed)
  let fitted := df.map (fun r => polyval fit_coeff r.freq)
  List.zipWith (· - ·) norm fitted

/-- `freq_to_rv(frequency_array)` from `src/plot_functions.py`:
`rv = 2.99792e8 * (f21cm - f) / f` elementwise. -/
def freq_to_rv (frequency_array : List ℚ) : List ℚ :=
  frequency_array.map (fun f => 299792000 * (f21cm - f) / f)

/-- `get_tangential_velocity(v_radial, l)` from `src/plot_functions.py`:
`R = R_sun * sin(l_rad)`, `v = v_radial + v_sun * sin(l_rad)` with
`R_sun = 8`, `v_sun = 220`, `l_rad = l * pi / 180`. -/
noncomputable def get_tangential_velocity (v_radial l : ℝ) : ℝ × ℝ :=
  let R_sun : ℝ := 8
  let v_sun : ℝ := 220
  let l_rad := l * Real.pi / 180
  (R_sun * Real.sin l_rad, v_radial + v_sun * Real.sin l_rad)

/-- The fixed longitude list of `get_all_datasets` (note 120 last). -/
def longitudes : List ℕ :=
  [10, 15, 20, 25, 30, 35, 40, 45, 50, 55, 60,
   65, 70, 75, 80, 85, 90, 95, 100, 110, 130,
   140, 150, 160, 170, 180, 190, 120]

/-- Sequential effectful map over `Except` (a Python `for` loop that
propagates the first raised exception and otherwise collects results in
order). -/
def mapE (f : α → Except Err β) : List α → Except Err (List β)
  | [] => .ok []
  | a :: l => do
    let b ← f a
    let bs ← mapE f l
    .ok (b :: bs)

/-- Lexicographic comparison of code-point sequences (how Python
compares strings). -/
def charListLe : List Char → List Char → Bool
  | [], _ => true
  | _ :: _, [] => false
  | a :: as, b :: bs =>
    if a < b then true else if b < a then false else charListLe as bs

/-- Python string `<=`: lexicographic by code point. -/
def strLeB (a b : String) : Bool := charListLe a.data b.data

/-- Insert a filename into an already sorted list. -/
def insertSorted (s : String) : List String → List String
  | [] => [s]
  | t :: ts => if strLeB s t then s :: t :: ts else t :: insertSorted s ts

/-- Python `list.sort()` on filenames: ascending lexicographic
(insertion sort; the input holds no duplicate filenames, so stability
is irrelevant). -/
def sortFiles : List String → List String
  | [] => []
  | s :: ss => insertSorted s (sortFiles ss)

/-- The qualifying files of `get_all_datasets`: the directory listing
sorted (Python `list.sort`, lexicographic) with the last two entries
discarded (`file_list[:-2]`, the text file and a folder). -/
def qualify (listing : List String) : List String :=
  ((sortFiles listing).dropLast).dropLast

/-- The body of `get_all_datasets` after file discovery: for each
`i < len(file_list)//2`, read `file_list[2*i]` as the off-plane set and
`file_list[2*i+1]` as the on-plane set, and store
`create_dataframe(set_on, set_off)` under `longitudes[i]` (a Python
`IndexError` on `longitudes[i]` is `Err.unknownLongitude`). -/
def datasetStep (file_list : List String) (load : String → Raw) (i : ℕ) :
    Except Err (ℕ × List Row) :=
  match longitudes.get? i with
  | none => .error .unknownLongitude
  | some lng => do
    let set_on := load (file_list.getD (2*i+1) "")
    let set_off := load (file_list.getD (2*i) "")
    let df ← create_dataframe set_on set_off
    .ok (lng, df)

/-- The loop of `get_all_datasets` after file discovery: one
`datasetStep` per `i < len(file_list)//2`. -/
def get_all_datasets_core (file_list : List String) (load : String → Raw) :
    Except Err (List (ℕ × List Row)) :=
  mapE (datasetStep file_list load) (List.range (file_list.length / 2))

/-- `get_all_datasets()` from `src/data_functions.py`, with the
directory listing and the pickle decoder passed explicitly (file I/O is
external).  The returned association list, keyed by longitude and built
in loop order, stands for the Python dict. -/
def get_all_datasets (listing : List String) (load : String → Raw) :
    Except Err (List (ℕ × List Row)) :=
  get_all_datasets_core (qualify listing) load

/-- A frequency survives all three artifact-band drops. -/
def keepFreq (f : ℚ) : Bool :=
  decide ((1:ℚ)/100 ≤ |f - 1420|) &&
    (decide ((1:ℚ)/20 ≤ |f - 14192/10|) && decide ((1:ℚ)/20 ≤ |f - 28470/20|))

/-- A row survives all three artifact-band drops. -/
def keepRow (r : Row) : Bool := keepFreq r.freq

/-- Exchange the `data` and `baseline` columns of a row. -/
def swapRow (r : Row) : Row := ⟨r.freq, r.baseline, r.data⟩

/-- A raw measurement whose 2-D `data` array is nonempty and
rectangular with one column per frequency bin (what numpy enforces for
the pipeline's inputs). -/
def wellFormed (m : Raw) : Prop :=
  m.data ≠ [] ∧ ∀ row ∈ m.data, row.length = m.freqs.length

/-- The end-to-end scenario measurement of the spec: frequencies
`[1419.0, 1420.0, 1420.405, 1421.0, 1423.5]`, one scan of all-1
powers. -/
def rawScenario : Raw :=
  ⟨[1419, 1420, 1420405/1000, 1421, 28470/20], [[1, 1, 1, 1, 1]], []⟩

/-- Two measurements that differ only in their `time` field. -/
def rawTimeA : Raw := ⟨[1419], [[1]], [0]⟩

/-- Two measurements that differ only in their `time` field. -/
def rawTimeB : Raw := ⟨[1419], [[1]], [1]⟩

/-- An on-plane measurement with mean power 2 at 1419 MHz. -/
def rawOn2 : Raw := ⟨[1419], [[2]], []⟩

/-- An off-plane measurement with mean power 1 at 1419 MHz. -/
def rawOff1 : Raw := ⟨[1419], [[1]], []⟩

/-- An off-plane measurement with two frequency bins. -/
def rawOff2 : Raw := ⟨[1419, 1420], [[1, 2]], []⟩

/-- An off-plane measurement like `rawOff1` but with different `freqs`
and `time` (same `data`). -/
def rawOff1Alt : Raw := ⟨[9999], [[1]], [5]⟩

/-- A one-row spectrum table with ratio 2. -/
def dfOne : List Row := [⟨1419, 2, 1⟩]

/-- A trivial stand-in for the external fitting routine. -/
def fitZero : ℕ → List (ℚ × ℚ) → List ℚ := fun _ _ => []

/-- A pickle decoder returning the same measurement for every file. -/
def loadConst : String → Raw := fun _ => ⟨[1419], [[1]], []⟩

/-- A directory listing with four qualifying files and the two ignored
trailing entries. -/
def listingEven : List String := ["b_on", "a_off", "d_on", "c_off", "y_info", "z_folder"]

/-- A directory listing with three (an odd number of) qualifying files
and the two ignored trailing entries. -/
def listingOdd : List String := ["b_on", "a_off", "c_x", "y_info", "z_folder"]

/-- The spectrum table `create_dataframe` builds from two copies of
`loadConst`'s measurement. -/
def dfConst : List Row := [⟨1419, 1, 1⟩]

/-- The mapping `get_all_datasets` builds from `listingEven` under
`loadConst`. -/
def datasetsEven : List (ℕ × List Row) := [(10, dfConst), (15, dfConst)]

theorem npAbs_eq_abs (x : ℚ) : npAbs x = |x| := by
  unfold npAbs
  rcases lt_or_le x 0 with h | h
  · rw [if_pos h, abs_of_neg h]
  · rw [if_neg (not_lt.mpr h), abs_of_nonneg h]

theorem not_lt_decide (x c : ℚ) : (!decide (npAbs x < c)) = decide (c ≤ |x|) := by
  rw [npAbs_eq_abs]
  by_cases h : |x| < c
  · simp [h, not_le.mpr h]
  · simp [h, not_lt.mp h]

theorem create_dataframe_eq_filter (set_on set_off : Raw)
    (h1 : (colMean set_on.data).length = set_on.freqs.length)
    (h2 : (colMean set_off.data).length = set_on.freqs.length) :
    create_dataframe set_on set_off =
      .ok ((zipWith3 Row.mk set_on.freqs (colMean set_on.data)
        (colMean set_off.data)).filter keepRow) := by
  simp only [create_dataframe]
  rw [if_pos ⟨h1.symm, h1.trans h2.symm⟩]
  congr 1
  rw [List.filter_filter, List.filter_filter]
  apply List.filter_congr
  intro r _
  simp only [not_lt_decide, keepRow, keepFreq]
  cases h3 : decide ((1:ℚ)/20 ≤ |r.freq - 28470/20|) <;>
    cases h2 : decide ((1:ℚ)/20 ≤ |r.freq - 14192/10|) <;>
    cases h1 : decide ((1:ℚ)/100 ≤ |r.freq - 1420|) <;> rfl

theorem colSum_length :
    ∀ (a : List (List ℚ)) (n : ℕ), (∀ row ∈ a, row.length = n) → a ≠ [] →
      (colSum a).length = n
  | [], _, _, hne => absurd rfl hne
  | [r], n, h, _ => by simpa using h r (by simp)
  | r :: r2 :: rs, n, h, _ => by
    have ih := colSum_length (r2 :: rs) n
      (fun row hr => h row (List.mem_cons_of_mem _ hr)) (by simp)
    have hr : r.length = n := h r (by simp)
    simp [colSum, List.length_zipWith, hr, ih]

theorem colMean_length (m : Raw) (h : wellFormed m) :
    (colMean m.data).length = m.freqs.length := by
  unfold colMean
  rw [List.length_map]
  exact colSum_length m.data m.freqs.length h.2 h.1

/-- C2: for every on/off pair (with one scan-mean value per frequency
bin), `create_dataframe` succeeds and returns exactly the rows of the
zipped freq/data/baseline table whose frequency lies outside all three
artifact bands (1420 ± 0.01, 1419.2 ± 0.05, 1423.5 ± 0.05 MHz), in
their original order; no returned row's frequency lies within any
band.  The witness instantiates the spec's end-to-end scenario
`[1419.0, 1420.0, 1420.405, 1421.0, 1423.5]`: the 1420.0 and 1423.5
rows are dropped and exactly `[1419.0, 1420.405, 1421.0]` remain. -/
theorem create_dataframe_bands (set_on set_off : Raw)
    (h1 : (colMean set_on.data).length = set_on.freqs.length)
    (h2 : (colMean set_off.data).length = set_on.freqs.length) :
    ∃ rows, create_dataframe set_on set_off = .ok rows ∧
      rows = (zipWith3 Row.mk set_on.freqs (colMean set_on.data)
        (colMean set_off.data)).filter keepRow ∧
      ∀ r ∈ rows, (1:ℚ)/100 ≤ |r.freq - 1420| ∧
        (1:ℚ)/20 ≤ |r.freq - 14192/10| ∧ (1:ℚ)/20 ≤ |r.freq - 28470/20| := by
  refine ⟨_, create_dataframe_eq_filter set_on set_off h1 h2, rfl, ?_⟩
  intro r hr
  rw [List.mem_filter] at hr
  have hk := hr.2
  simp only [keepRow, keepFreq, Bool.and_eq_true, decide_eq_true_eq] at hk
  exact hk

/-- Witness for C2: the spec's end-to-end scenario. -/
theorem create_dataframe_bands_witness :
    (colMean rawScenario.data).length = rawScenario.freqs.length ∧
    (∃ rows, create_dataframe rawScenario rawScenario = .ok rows ∧
      rows = (zipWith3 Row.mk rawScenario.freqs (colMean rawScenario.data)
        (colMean rawScenario.data)).filter keepRow ∧
      ∀ r ∈ rows, (1:ℚ)/100 ≤ |r.freq - 1420| ∧
        (1:ℚ)/20 ≤ |r.freq - 14192/10| ∧ (1:ℚ)/20 ≤ |r.freq - 28470/20|) ∧
    create_dataframe rawScenario rawScenario =
      .ok [⟨1419, 1, 1⟩, ⟨1420405/1000, 1, 1⟩, ⟨1421, 1, 1⟩] := by
  have h1 : (colMean rawScenario.data).length = rawScenario.freqs.length := by
    norm_num [rawScenario, colMean, colSum]
  refine ⟨h1, create_dataframe_bands rawScenario rawScenario h1 h1, ?_⟩
  norm_num [rawScenario, create_dataframe, colMean, colSum, zipWith3, npAbs, List.filter]

/-- C4: `create_dataframe` on a well-formed on/off pair whose frequency
axes have different lengths fails with the frequency-mismatch error
(the pandas length error), not with success or any other outcome. -/
theorem create_dataframe_mismatch (set_on set_off : Raw)
    (hon : wellFormed set_on) (hoff : wellFormed set_off)
    (hne : set_on.freqs.length ≠ set_off.freqs.length) :
    create_dataframe set_on set_off = .error .frequencyMismatch := by
  have hlon := colMean_length set_on hon
  have hloff := colMean_length set_off hoff
  unfold create_dataframe
  rw [if_neg]
  intro hc
  exact hne ((hlon.symm.trans hc.2).trans hloff)

/-- Witness for C4: a one-bin measurement against a two-bin one. -/
theorem create_dataframe_mismatch_witness :
    wellFormed rawOff1 ∧ wellFormed rawOff2 ∧
    rawOff1.freqs.length ≠ rawOff2.freqs.length ∧
    create_dataframe rawOff1 rawOff2 = .error .frequencyMismatch := by
  have hon : wellFormed rawOff1 := by
    constructor
    · simp [rawOff1]
    · intro row hr
      simp [rawOff1] at hr
      simp [hr, rawOff1]
  have hoff : wellFormed rawOff2 := by
    constructor
    · simp [rawOff2]
    · intro row hr
      simp [rawOff2] at hr
      simp [hr, rawOff2]
  have hne : rawOff1.freqs.length ≠ rawOff2.freqs.length := by
    simp [rawOff1, rawOff2]
  exact ⟨hon, hoff, hne, create_dataframe_mismatch rawOff1 rawOff2 hon hoff hne⟩

theorem zipWith3_map_freq :
    ∀ (f d b : List ℚ), f.length ≤ d.length → f.length ≤ b.length →
      (zipWith3 Row.mk f d b).map Row.freq = f
  | [], _, _, _, _ => rfl
  | x :: xs, [], _, hd, _ => by simp at hd
  | x :: xs, y :: ys, [], _, hb => by simp at hb
  | x :: xs, y :: ys, z :: zs, hd, hb => by
    simp only [zipWith3, List.map_cons]
    rw [zipWith3_map_freq xs ys zs (by simpa using hd) (by simpa using hb)]

theorem map_freq_filter (l : List Row) :
    (l.filter keepRow).map Row.freq = (l.map Row.freq).filter keepFreq := by
  induction l with
  | nil => rfl
  | cons a t ih =>
    rw [List.filter_cons, List.map_cons, List.filter_cons]
    by_cases h : keepFreq a.freq = true
    · rw [if_pos (show keepRow a = true from h), if_pos h, List.map_cons, ih]
    · rw [if_neg (show ¬ keepRow a = true from h), if_neg h, ih]

/-- C10: `create_dataframe` never reads the off-measurement's `freqs`
(or `time`): two off-measurements with the same `data` give identical
results, and a successful result's frequency column is always the
on-measurement's frequency list restricted to the out-of-band
entries — so a value mismatch between equal-length frequency axes goes
undetected. -/
theorem create_dataframe_reads_only_on_freqs (set_on off1 off2 : Raw)
    (hd : off1.data = off2.data) :
    create_dataframe set_on off1 = create_dataframe set_on off2 ∧
    ∀ rows, create_dataframe set_on off1 = .ok rows →
      rows.map Row.freq = set_on.freqs.filter keepFreq := by
  constructor
  · unfold create_dataframe
    rw [hd]
  · intro rows hok
    by_cases hc : set_on.freqs.length = (colMean set_on.data).length ∧
        (colMean set_on.data).length = (colMean off1.data).length
    · have heq := create_dataframe_eq_filter set_on off1 hc.1.symm
        (hc.2.symm.trans hc.1.symm)
      rw [heq] at hok
      injection hok with hok
      rw [← hok, map_freq_filter,
        zipWith3_map_freq _ _ _ (le_of_eq hc.1) (le_of_eq (hc.1.trans hc.2))]
    · simp only [create_dataframe] at hok
      rw [if_neg hc] at hok
      cases hok

/-- Witness for C10: off-measurements with equal `data` but different
`freqs` and `time` fields are indistinguishable to `create_dataframe`. -/
theorem create_dataframe_reads_only_on_freqs_witness :
    rawOff1.data = rawOff1Alt.data ∧ rawOff1 ≠ rawOff1Alt ∧
    (create_dataframe rawOn2 rawOff1 = create_dataframe rawOn2 rawOff1Alt ∧
      ∀ rows, create_dataframe rawOn2 rawOff1 = .ok rows →
        rows.map Row.freq = rawOn2.freqs.filter keepFreq) := by
  refine ⟨rfl, ?_, create_dataframe_reads_only_on_freqs rawOn2 rawOff1 rawOff1Alt rfl⟩
  intro h
  have := congrArg Raw.freqs h
  simp only [rawOff1, rawOff1Alt] at this
  norm_num at this

theorem create_dataframe_congr (a b c d : Raw) (h1 : a.freqs = c.freqs)
    (h2 : a.data = c.data) (h3 : b.data = d.data) :
    create_dataframe a b = create_dataframe c d := by
  unfold create_dataframe
  rw [h1, h2, h3]

/-- Counterexample to C9: two distinct measurements (differing only in
`time`) for which swapping the operands of `create_dataframe` yields
the same record. -/
theorem create_dataframe_swap_counterexample :
    rawTimeA ≠ rawTimeB ∧
    create_dataframe rawTimeA rawTimeB = create_dataframe rawTimeB rawTimeA := by
  constructor
  · intro h
    have := congrArg Raw.time h
    simp only [rawTimeA, rawTimeB] at this
    norm_num at this
  · exact create_dataframe_congr rawTimeA rawTimeB rawTimeB rawTimeA rfl rfl rfl

theorem zipWith3_swap :
    ∀ (f d b : List ℚ),
      zipWith3 Row.mk f b d = (zipWith3 Row.mk f d b).map swapRow
  | [], _, _ => rfl
  | x :: xs, [], [] => rfl
  | x :: xs, [], z :: zs => rfl
  | x :: xs, y :: ys, [] => rfl
  | x :: xs, y :: ys, z :: zs => by
    simp only [zipWith3, List.map_cons]
    rw [zipWith3_swap xs ys zs]
    rfl

theorem filter_keepRow_map_swap (l : List Row) :
    (l.map swapRow).filter keepRow = (l.filter keepRow).map swapRow := by
  induction l with
  | nil => rfl
  | cons a t ih =>
    rw [List.map_cons, List.filter_cons, List.filter_cons]
    by_cases h : keepRow a = true
    · rw [if_pos (show keepRow (swapRow a) = true from h), if_pos h, List.map_cons, ih]
    · rw [if_neg (show ¬ keepRow (swapRow a) = true from h), if_neg h, ih]

theorem eq_map_swap_forall :
    ∀ {l : List Row}, l = l.map swapRow → ∀ r ∈ l, r.data = r.baseline := by
  intro l
  induction l with
  | nil => intro _ r hr; cases hr
  | cons a t ih =>
    intro h r hr
    rw [List.map_cons] at h
    injection h with h1 h2
    rcases List.mem_cons.mp hr with h3 | h3
    · subst h3
      exact congrArg Row.data h1
    · exact ih h2 r h3

/-- C9 (amended): swapping the on/off operands of `create_dataframe`
gives a different record whenever the two measurements share a
frequency axis and some retained row's on-mean differs from its
off-mean; measurements differing only in fields the function never
reads (e.g. `time`) give identical records, refuting the original
universally-quantified claim. -/
theorem create_dataframe_swap_ne (a b : Raw) (hf : a.freqs = b.freqs)
    (h : ∃ rows, create_dataframe a b = .ok rows ∧
      ∃ r ∈ rows, r.data ≠ r.baseline) :
    create_dataframe a b ≠ create_dataframe b a := by
  obtain ⟨rows, hok, r, hr, hne⟩ := h
  intro heq
  by_cases hc : a.freqs.length = (colMean a.data).length ∧
      (colMean a.data).length = (colMean b.data).length
  · have hab := create_dataframe_eq_filter a b hc.1.symm
      (hc.2.symm.trans hc.1.symm)
    rw [hab] at hok
    injection hok with hok
    have hc' : b.freqs.length = (colMean b.data).length ∧
        (colMean b.data).length = (colMean a.data).length :=
      ⟨(hf.symm ▸ hc.1).trans hc.2, hc.2.symm⟩
    have hba := create_dataframe_eq_filter b a hc'.1.symm
      (hc'.2.symm.trans hc'.1.symm)
    rw [hab, hba] at heq
    injection heq with heq
    have hZ1 : zipWith3 Row.mk a.freqs (colMean a.data) (colMean b.data) =
        (zipWith3 Row.mk a.freqs (colMean b.data) (colMean a.data)).map swapRow :=
      zipWith3_swap a.freqs (colMean b.data) (colMean a.data)
    rw [← hf, hZ1, filter_keepRow_map_swap] at heq
    rw [hZ1, filter_keepRow_map_swap] at hok
    have hrowsL : rows = (zipWith3 Row.mk a.freqs (colMean b.data)
        (colMean a.data)).filter keepRow := hok.symm.trans heq
    rw [hrowsL] at hr
    exact hne (eq_map_swap_forall heq.symm r hr)
  · simp only [create_dataframe] at hok
    rw [if_neg hc] at hok
    cases hok

/-- Witness for C9 (amended): on-mean 2 against off-mean 1 at a
retained frequency. -/
theorem create_dataframe_swap_ne_witness :
    rawOn2.freqs = rawOff1.freqs ∧
    (∃ rows, create_dataframe rawOn2 rawOff1 = .ok rows ∧
      ∃ r ∈ rows, r.data ≠ r.baseline) ∧
    create_dataframe rawOn2 rawOff1 ≠ create_dataframe rawOff1 rawOn2 := by
  have hf : rawOn2.freqs = rawOff1.freqs := rfl
  have hok : create_dataframe rawOn2 rawOff1 = .ok [⟨1419, 2, 1⟩] := by
    norm_num [rawOn2, rawOff1, create_dataframe, colMean, colSum, zipWith3, npAbs,
      List.filter]
  have h : ∃ rows, create_dataframe rawOn2 rawOff1 = .ok rows ∧
      ∃ r ∈ rows, r.data ≠ r.baseline := by
    refine ⟨[⟨1419, 2, 1⟩], hok, ⟨1419, 2, 1⟩, by simp, by norm_num⟩
  exact ⟨hf, h, create_dataframe_swap_ne rawOn2 rawOff1 hf h⟩

theorem zipWith_sub_map (f g : Row → ℚ) (l : List Row) :
    List.zipWith (fun a b => a - b) (l.map f) (l.map g) =
      l.map (fun x => f x - g x) := by
  induction l with
  | nil => rfl
  | cons a t ih => simp only [List.map_cons, List.zipWith_cons_cons, ih]

theorem trim_filter_eq (df : List Row) :
    df.filter (fun r => !decide (npAbs (r.freq - f21cm) < 1/2)) =
      df.filter (fun r => decide ((1:ℚ)/2 ≤ |r.freq - f21cm|)) := by
  apply List.filter_congr
  intro r _
  exact not_lt_decide _ _

/-- C1: for every spectrum table whose rows all have nonzero
`baseline`, `detrend` forms the elementwise ratio `data / baseline`,
hands the external degree-13 least-squares fit (`np.polyfit`, modelled
as the parameter `fit`) exactly the (frequency, ratio) pairs of the
rows with `|freq - 1420.405| ≥ 0.5`, evaluates the fitted polynomial at
every row's frequency, and returns ratio minus fitted value
elementwise, with the same length and order as the input rows. -/
theorem detrend_spec (fit : ℕ → List (ℚ × ℚ) → List ℚ) (df : List Row)
    (h : ∀ r ∈ df, r.baseline ≠ 0) :
    detrend fit df = df.map (fun r => r.data / r.baseline -
      polyval (fit 13 ((df.filter (fun r => decide ((1:ℚ)/2 ≤ |r.freq - f21cm|))).map
        (fun r => (r.freq, r.data / r.baseline)))) r.freq) ∧
    (detrend fit df).length = df.length := by
  have hdet : detrend fit df = df.map (fun r => r.data / r.baseline -
      polyval (fit 13 ((df.filter (fun r => decide ((1:ℚ)/2 ≤ |r.freq - f21cm|))).map
        (fun r => (r.freq, r.data / r.baseline)))) r.freq) := by
    simp only [detrend, trim_filter_eq, List.zip_map']
    exact zipWith_sub_map _ _ df
  refine ⟨hdet, ?_⟩
  rw [hdet, List.length_map]

/-- Witness for C1: a one-row table with ratio 2 and the trivial fit. -/
theorem detrend_spec_witness :
    (∀ r ∈ dfOne, r.baseline ≠ 0) ∧
    (detrend fitZero dfOne = dfOne.map (fun r => r.data / r.baseline -
      polyval (fitZero 13 ((dfOne.filter
        (fun r => decide ((1:ℚ)/2 ≤ |r.freq - f21cm|))).map
        (fun r => (r.freq, r.data / r.baseline)))) r.freq) ∧
      (detrend fitZero dfOne).length = dfOne.length) := by
  have h : ∀ r ∈ dfOne, r.baseline ≠ 0 := by
    intro r hr
    simp only [dfOne, List.mem_singleton] at hr
    rw [hr]
    norm_num
  exact ⟨h, detrend_spec fitZero dfOne h⟩

/-- C6: `freq_to_rv` computes `rv = c * (f21cm - f) / f` elementwise
with `c = 2.99792e8` and `f21cm = 1420.405`, and maps the rest-frame
frequency 1420.405 to exactly 0. -/
theorem freq_to_rv_spec (fs : List ℚ) (h : ∀ f ∈ fs, f ≠ 0) :
    freq_to_rv fs = fs.map (fun f => 299792000 * (f21cm - f) / f) ∧
    freq_to_rv [f21cm] = [0] := by
  refine ⟨rfl, ?_⟩
  norm_num [freq_to_rv, f21cm]

/-- Witness for C6: the rest-frame frequency itself. -/
theorem freq_to_rv_spec_witness :
    (∀ f ∈ [f21cm], f ≠ 0) ∧ freq_to_rv [f21cm] = [0] := by
  have h : ∀ f ∈ [f21cm], f ≠ 0 := by
    intro f hf
    rw [List.mem_singleton] at hf
    rw [hf]
    norm_num [f21cm]
  exact ⟨h, (freq_to_rv_spec [f21cm] h).2⟩

/-- C7: `get_tangential_velocity` returns
`(8 * sin(l * pi / 180), v_radial + 220 * sin(l * pi / 180))`, and at
`(0, 90)` it returns exactly `(8, 220)`. -/
theorem get_tangential_velocity_spec :
    (∀ v_radial l : ℝ, get_tangential_velocity v_radial l =
      (8 * Real.sin (l * Real.pi / 180),
        v_radial + 220 * Real.sin (l * Real.pi / 180))) ∧
    get_tangential_velocity 0 90 = (8, 220) := by
  constructor
  · intro v_radial l
    rfl
  · have h90 : (90 : ℝ) * Real.pi / 180 = Real.pi / 2 := by ring
    simp only [get_tangential_velocity, h90, Real.sin_pi_div_two]
    norm_num

theorem mapE_ok (f : α → Except Err β) :
    ∀ {l : List α} {m : List β}, mapE f l = .ok m →
      m.length = l.length ∧
      ∀ i a, l.get? i = some a → ∃ b, f a = .ok b ∧ m.get? i = some b := by
  intro l
  induction l with
  | nil =>
    intro m h
    simp only [mapE] at h
    injection h with h
    subst h
    exact ⟨rfl, fun i a ha => by cases i <;> cases ha⟩
  | cons a t ih =>
    intro m h
    simp only [mapE] at h
    cases hfa : f a with
    | error e => rw [hfa] at h; cases h
    | ok b =>
      rw [hfa] at h
      cases hml : mapE f t with
      | error e => rw [hml] at h; cases h
      | ok bs =>
        rw [hml] at h
        have h2 : Except.ok (ε := Err) (b :: bs) = Except.ok m := h
        injection h2 with h2
        subst h2
        obtain ⟨hlen, hget⟩ := ih hml
        refine ⟨by simp [hlen], ?_⟩
        intro i x hx
        cases i with
        | zero =>
          injection hx with hx
          subst hx
          exact ⟨b, hfa, rfl⟩
        | succ n => exact hget n x hx

theorem mapE_congr (f g : α → Except Err β) :
    ∀ (l : List α), (∀ a ∈ l, f a = g a) → mapE f l = mapE g l := by
  intro l
  induction l with
  | nil => intro _; rfl
  | cons a t ih =>
    intro h
    simp only [mapE]
    rw [h a (by simp), ih (fun x hx => h x (List.mem_cons_of_mem _ hx))]

theorem getD_dropLast (l : List String) (i : ℕ) (h : i < l.length - 1) :
    l.dropLast.getD i "" = l.getD i "" := by
  rw [List.getD_eq_getD_get?, List.getD_eq_getD_get?, List.dropLast_eq_take]
  rw [List.get?_eq_getElem?, List.get?_eq_getElem?, List.getElem?_take_of_lt h]

/-- C5: whenever `get_all_datasets` succeeds, its i-th entry pairs the
i-th element of the fixed longitude list — exactly
`[10, 15, ..., 100, 110, 130, ..., 190, 120]`, 120 last, out of
numeric order — with the record built from the i-th pair of qualifying
files in lexicographic order, the first file of the pair decoded as the
off-plane set and the second as the on-plane set. -/
theorem get_all_datasets_positional (listing : List String) (load : String → Raw)
    (m : List (ℕ × List Row)) (h : get_all_datasets listing load = .ok m) :
    longitudes = [10, 15, 20, 25, 30, 35, 40, 45, 50, 55, 60, 65, 70, 75, 80, 85,
      90, 95, 100, 110, 130, 140, 150, 160, 170, 180, 190, 120] ∧
    m.length = (qualify listing).length / 2 ∧
    ∀ i, i < m.length →
      ∃ df, create_dataframe (load ((qualify listing).getD (2*i+1) ""))
          (load ((qualify listing).getD (2*i) "")) = .ok df ∧
        m.get? i = some (longitudes.getD i 0, df) := by
  have h' : mapE (datasetStep (qualify listing) load)
      (List.range ((qualify listing).length / 2)) = .ok m := h
  obtain ⟨hlen, hget⟩ := mapE_ok _ h'
  rw [List.length_range] at hlen
  refine ⟨rfl, hlen, ?_⟩
  intro i hi
  have hir : (List.range ((qualify listing).length / 2)).get? i = some i :=
    List.get?_range (hlen ▸ hi)
  obtain ⟨b, hstep, hmget⟩ := hget i i hir
  unfold datasetStep at hstep
  cases hlng : longitudes.get? i with
  | none => rw [hlng] at hstep; cases hstep
  | some lng =>
    rw [hlng] at hstep
    have hstep' : Except.bind (create_dataframe (load ((qualify listing).getD (2*i+1) ""))
        (load ((qualify listing).getD (2*i) "")))
        (fun df => Except.ok (lng, df)) = Except.ok b := hstep
    cases hdf : create_dataframe (load ((qualify listing).getD (2*i+1) ""))
        (load ((qualify listing).getD (2*i) "")) with
    | error e => rw [hdf] at hstep'; cases hstep'
    | ok df =>
      rw [hdf] at hstep'
      have hb : Except.ok (ε := Err) (lng, df) = .ok b := hstep'
      injection hb with hb
      subst hb
      refine ⟨df, rfl, ?_⟩
      rw [hmget, List.getD_eq_getD_get?, hlng]
      rfl

/-- Witness for C5: four qualifying files under a constant decoder give
the mapping `[(10, df), (15, df)]`. -/
theorem get_all_datasets_positional_witness :
    get_all_datasets listingEven loadConst = .ok datasetsEven ∧
    (longitudes = [10, 15, 20, 25, 30, 35, 40, 45, 50, 55, 60, 65, 70, 75, 80, 85,
      90, 95, 100, 110, 130, 140, 150, 160, 170, 180, 190, 120] ∧
    datasetsEven.length = (qualify listingEven).length / 2 ∧
    ∀ i, i < datasetsEven.length →
      ∃ df, create_dataframe (loadConst ((qualify listingEven).getD (2*i+1) ""))
          (loadConst ((qualify listingEven).getD (2*i) "")) = .ok df ∧
        datasetsEven.get? i = some (longitudes.getD i 0, df)) := by
  have hdf : create_dataframe (loadConst "") (loadConst "") = .ok dfConst := by
    norm_num [loadConst, dfConst, create_dataframe, colMean, colSum, zipWith3, npAbs,
      List.filter]
  have hstep : ∀ i lng, longitudes.get? i = some lng →
      datasetStep (qualify listingEven) loadConst i = .ok (lng, dfConst) := by
    intro i lng hlng
    unfold datasetStep
    rw [hlng]
    show Except.bind (create_dataframe (loadConst ((qualify listingEven).getD (2*i+1) ""))
      (loadConst ((qualify listingEven).getD (2*i) "")))
      (fun df => Except.ok (lng, df)) = Except.ok (lng, dfConst)
    have h1 : loadConst ((qualify listingEven).getD (2*i+1) "") = loadConst "" := rfl
    have h2 : loadConst ((qualify listingEven).getD (2*i) "") = loadConst "" := rfl
    rw [h1, h2, hdf]
    rfl
  have h : get_all_datasets listingEven loadConst = .ok datasetsEven := by
    show mapE (datasetStep (qualify listingEven) loadConst)
      (List.range ((qualify listingEven).length / 2)) = .ok datasetsEven
    have hq : (qualify listingEven).length / 2 = 2 := rfl
    rw [hq]
    have hr : List.range 2 = [0, 1] := rfl
    rw [hr]
    simp only [mapE]
    rw [hstep 0 10 rfl, hstep 1 15 rfl]
    rfl
  exact ⟨h, get_all_datasets_positional listingEven loadConst datasetsEven h⟩

/-- Counterexample to C3: a directory with an odd number of qualifying
files on which `get_all_datasets` does not raise but silently skips the
unpaired file and returns a partial mapping. -/
theorem get_all_datasets_odd_counterexample :
    (qualify listingOdd).length % 2 = 1 ∧
    get_all_datasets listingOdd loadConst = .ok [(10, dfConst)] := by
  refine ⟨rfl, ?_⟩
  have hdf : create_dataframe (loadConst "") (loadConst "") = .ok dfConst := by
    norm_num [loadConst, dfConst, create_dataframe, colMean, colSum, zipWith3, npAbs,
      List.filter]
  show mapE (datasetStep (qualify listingOdd) loadConst)
    (List.range ((qualify listingOdd).length / 2)) = .ok [(10, dfConst)]
  have hq : (qualify listingOdd).length / 2 = 1 := rfl
  have hr : List.range 1 = [0] := rfl
  rw [hq, hr]
  simp only [mapE]
  have hstep : datasetStep (qualify listingOdd) loadConst 0 = .ok (10, dfConst) := by
    unfold datasetStep
    rw [show longitudes.get? 0 = some 10 from rfl]
    show Except.bind (create_dataframe (loadConst ((qualify listingOdd).getD 1 ""))
      (loadConst ((qualify listingOdd).getD 0 "")))
      (fun df => Except.ok (10, df)) = Except.ok (10, dfConst)
    rw [show loadConst ((qualify listingOdd).getD 1 "") = loadConst "" from rfl]
    rw [show loadConst ((qualify listingOdd).getD 0 "") = loadConst "" from rfl]
    rw [hdf]
    rfl
  rw [hstep]
  rfl

/-- C3 (amended): `get_all_datasets` on an odd number of qualifying
files raises nothing: `len(file_list)//2` floors, so the final unpaired
file is silently ignored and the run is identical to one without it,
refuting the claimed `MalformedDatasetError`. -/
theorem get_all_datasets_core_odd (files : List String) (load : String → Raw)
    (h : files.length % 2 = 1) :
    get_all_datasets_core files load = get_all_datasets_core files.dropLast load := by
  unfold get_all_datasets_core
  have hlen : files.dropLast.length = files.length - 1 := List.length_dropLast files
  have hn : files.dropLast.length / 2 = files.length / 2 := by omega
  rw [hn]
  apply mapE_congr
  intro i hi
  rw [List.mem_range] at hi
  unfold datasetStep
  have h1 : 2*i < files.length - 1 := by omega
  have h2 : 2*i+1 < files.length - 1 := by omega
  rw [getD_dropLast _ _ h1, getD_dropLast _ _ h2]

/-- Witness for C3 (amended): three qualifying files behave exactly as
the first two alone. -/
theorem get_all_datasets_core_odd_witness :
    (["a_off", "b_on", "c_x"] : List String).length % 2 = 1 ∧
    get_all_datasets_core ["a_off", "b_on", "c_x"] loadConst =
      get_all_datasets_core (["a_off", "b_on", "c_x"] : List String).dropLast loadConst :=
  ⟨rfl, get_all_datasets_core_odd ["a_off", "b_on", "c_x"] loadConst rfl⟩
